import Mathlib

/-!
# Verification of the activiza-api onboarding core

A shallow embedding, in Lean 4, of the identity-resolution and progressive
onboarding engine of the repository:

* `src/utils/documentValidator.ts` — pure document validation,
* `src/services/clientsService.ts` — identity store create/update with
  email/document collision checks,
* `src/services/onboardingService.ts` — progressive save, finalization
  (`submitOnboarding`) and the progress resolver (`getOnboardingProgress`).

JavaScript strings are modelled as `List Char` (`Str`); JS `undefined` as
`Option.none`; JS string truthiness (`""` is falsy) as non-emptiness; JS
`parseInt` on a single character as `Option Nat` with `none` playing the
role of `NaN` (every `NaN !== x` comparison is `false` on the `Option`
side, matching the JS control flow).  `toLowerCase`/`toUpperCase` are
modelled on the ASCII range, which covers every string the validator
rule table compares against.
-/

/-- JavaScript strings, modelled as lists of characters. -/
abbrev Str := List Char

/-- A string literal as a `Str`. -/
def strF (s : String) : Str := s.data

/-- ASCII lower-casing of one character (model of JS `toLowerCase`). -/
def lowerChar (c : Char) : Char :=
  if 65 ≤ c.toNat ∧ c.toNat ≤ 90 then Char.ofNat (c.toNat + 32) else c

/-- ASCII upper-casing of one character (model of JS `toUpperCase`). -/
def upperChar (c : Char) : Char :=
  if 97 ≤ c.toNat ∧ c.toNat ≤ 122 then Char.ofNat (c.toNat - 32) else c

/-- Model of JS `String.prototype.toLowerCase` (ASCII range). -/
def toLowerStr (s : Str) : Str := s.map lowerChar

/-- Model of JS `String.prototype.toUpperCase` (ASCII range). -/
def toUpperStr (s : Str) : Str := s.map upperChar

theorem charToNat_ofNat (n : Nat) (h : n < 55296) : (Char.ofNat n).toNat = n := by
  unfold Char.ofNat
  rw [dif_pos (Or.inl h)]
  rfl

theorem lowerChar_idem (c : Char) : lowerChar (lowerChar c) = lowerChar c := by
  unfold lowerChar
  by_cases h : 65 ≤ c.toNat ∧ c.toNat ≤ 90
  · rw [if_pos h]
    have ht : (Char.ofNat (c.toNat + 32)).toNat = c.toNat + 32 :=
      charToNat_ofNat _ (by omega)
    rw [if_neg (by rw [ht]; omega)]
  · rw [if_neg h, if_neg h]

theorem upperChar_idem (c : Char) : upperChar (upperChar c) = upperChar c := by
  unfold upperChar
  by_cases h : 97 ≤ c.toNat ∧ c.toNat ≤ 122
  · rw [if_pos h]
    have ht : (Char.ofNat (c.toNat - 32)).toNat = c.toNat - 32 :=
      charToNat_ofNat _ (by omega)
    rw [if_neg (by rw [ht]; omega)]
  · rw [if_neg h, if_neg h]

theorem toLowerStr_idem (s : Str) : toLowerStr (toLowerStr s) = toLowerStr s := by
  simp only [toLowerStr, List.map_map]
  exact List.map_congr_left (fun c _ => lowerChar_idem c)

theorem toUpperStr_idem (s : Str) : toUpperStr (toUpperStr s) = toUpperStr s := by
  simp only [toUpperStr, List.map_map]
  exact List.map_congr_left (fun c _ => upperChar_idem c)

theorem toLowerStr_isEmpty (s : Str) : (toLowerStr s).isEmpty = s.isEmpty := by
  cases s <;> rfl

theorem toUpperStr_isEmpty (s : Str) : (toUpperStr s).isEmpty = s.isEmpty := by
  cases s <;> rfl

/-! ## Document Validator (`src/utils/documentValidator.ts`) -/

/-- `normalizeDocument`: strips every character that is not an ASCII digit
or letter (JS `document.replace(/[^\dA-Za-z]/g, '')`). -/
def normalizeDocument (document : Str) : Str :=
  document.filter (fun c => c.isDigit || c.isAlpha)

theorem normalizeDocument_idem (d : Str) :
    normalizeDocument (normalizeDocument d) = normalizeDocument d := by
  unfold normalizeDocument
  rw [List.filter_filter]
  exact List.filter_congr (fun c _ => by cases h : c.isDigit || c.isAlpha <;> simp [h])

/-- Numeric value of an ASCII digit character. -/
def charVal (c : Char) : Nat := c.toNat - 48

/-- JS `parseInt` on a single character: a value for a digit, `NaN`
(modelled as `none`) otherwise. -/
def digitVal (c : Char) : Option Nat :=
  if c.isDigit then some (charVal c) else none

/-- Digits of a character list; `none` as soon as one character is not a
digit (the JS sums propagate `NaN`). -/
def digitsOpt : Str → Option (List Nat)
  | [] => some []
  | c :: cs =>
    match digitVal c, digitsOpt cs with
    | some d, some ds => some (d :: ds)
    | _, _ => none

/-- JS `parseInt(s.charAt(i))`: `NaN` (`none`) out of range or on a
non-digit character. -/
def parseAt (s : Str) (i : Nat) : Option Nat := (s[i]?).bind digitVal

/-- JS strict equality on two possibly-`NaN` numbers: `NaN !== x` always
holds, so equality requires two actual values. -/
def optEq : Option Nat → Option Nat → Bool
  | some a, some b => a == b
  | _, _ => false

/-- The regex `/^(\d)\1+$/`: a string of length ≥ 2 made of one repeated
digit. -/
def repeatedDigit (s : Str) : Bool :=
  match s with
  | [] => false
  | c :: rest => c.isDigit && !rest.isEmpty && rest.all (fun x => x == c)

/-- CPF check-digit step of the source: `digit = 11 - (sum % 11); if
(digit >= 10) digit = 0`. -/
def cpfCodeDigit (sum : Nat) : Nat :=
  if 10 ≤ 11 - sum % 11 then 0 else 11 - sum % 11

/-- The weighted sum of `validateCPF`: `Σ parseInt(charAt(i)) * (w0 - i)`
over the first `k` characters, `NaN` (`none`) if any is not a digit. -/
def cpfWeightedSum (cleaned : Str) (k w0 : Nat) : Option Nat :=
  (digitsOpt (cleaned.take k)).map
    (fun ds => ((ds.enum.map (fun p => p.2 * (w0 - p.1))).sum))

/-- Body of `validateCPF` after normalization (the source normalizes its
argument first, see `validateCPF`). -/
def cpfChecks (cleaned : Str) : Bool :=
  if cleaned.length ≠ 11 then false
  else if repeatedDigit cleaned then false
  else if optEq ((cpfWeightedSum cleaned 9 10).map cpfCodeDigit) (parseAt cleaned 9) = false
    then false
  else if optEq ((cpfWeightedSum cleaned 10 11).map cpfCodeDigit) (parseAt cleaned 10) = false
    then false
  else true

/-- `validateCPF` (Brazilian CPF): 11-character normalization, repeated
digits rejected, two weighted check digits. -/
def validateCPF (cpf : Str) : Bool := cpfChecks (normalizeDocument cpf)

/-- CNPJ check-digit step of the source: `digit = sum % 11; digit = digit
< 2 ? 0 : 11 - digit`. -/
def cnpjCodeDigit (sum : Nat) : Nat :=
  if sum % 11 < 2 then 0 else 11 - sum % 11

def cnpjWeights1 : List Nat := [5, 4, 3, 2, 9, 8, 7, 6, 5, 4, 3, 2]

def cnpjWeights2 : List Nat := [6, 5, 4, 3, 2, 9, 8, 7, 6, 5, 4, 3, 2]

/-- Weighted sum of `validateCNPJ` over the first `k` characters with a
fixed weight vector, `NaN` (`none`) on a non-digit. -/
def cnpjWeightedSum (cleaned : Str) (k : Nat) (w : List Nat) : Option Nat :=
  (digitsOpt (cleaned.take k)).map
    (fun ds => ((ds.zip w).map (fun p => p.1 * p.2)).sum)

/-- `validateCNPJ` (Brazilian CNPJ): 14-character normalization, repeated
digits rejected, two check digits from the fixed weight vectors. -/
def validateCNPJ (cnpj : Str) : Bool :=
  let cleaned := normalizeDocument cnpj
  if cleaned.length ≠ 14 then false
  else if repeatedDigit cleaned then false
  else if optEq ((cnpjWeightedSum cleaned 12 cnpjWeights1).map cnpjCodeDigit)
      (parseAt cleaned 12) = false then false
  else if optEq ((cnpjWeightedSum cleaned 13 cnpjWeights2).map cnpjCodeDigit)
      (parseAt cleaned 13) = false then false
  else true

/-- `validateSSN` (US SSN).  Note: the source checks only the *length* of
the normalization (`cleaned.length !== 9`), not that the characters are
digits. -/
def validateSSN (ssn : Str) : Bool :=
  let cleaned := normalizeDocument ssn
  if cleaned.length ≠ 9 then false
  else if repeatedDigit cleaned then false
  else if cleaned.take 3 = strF "000" then false
  else if (cleaned.drop 3).take 2 = strF "00" then false
  else if cleaned.drop 5 = strF "0000" then false
  else true

/-- `validateEIN` (US EIN): 9-character normalization, repeated digits
rejected (length-only check, as in the source). -/
def validateEIN (ein : Str) : Bool :=
  let cleaned := normalizeDocument ein
  if cleaned.length ≠ 9 then false
  else if repeatedDigit cleaned then false
  else true

def isUpperAlpha (c : Char) : Bool := 65 ≤ c.toNat && c.toNat ≤ 90

/-- The regex `/^[A-Z]{2}\d{6}[A-Z]$/` of `validateNINumber`. -/
def niFormat (s : Str) : Bool :=
  match s with
  | a :: b :: c :: d :: e :: f :: g :: h :: i :: [] =>
    isUpperAlpha a && isUpperAlpha b && c.isDigit && d.isDigit && e.isDigit &&
    f.isDigit && g.isDigit && h.isDigit && isUpperAlpha i
  | _ => false

/-- Disallowed NI prefixes of the source. -/
def niBlocked : List Str :=
  [strF "BG", strF "GB", strF "NK", strF "KN", strF "TN", strF "NT", strF "ZZ"]

/-- `validateNINumber` (UK NI): upper-cased 9-character normalization
matching 2 letters + 6 digits + 1 letter, with a blocked-pair list. -/
def validateNI (ni : Str) : Bool :=
  let cleaned := toUpperStr (normalizeDocument ni)
  if cleaned.length ≠ 9 then false
  else if !niFormat cleaned then false
  else if niBlocked.contains (cleaned.take 2) then false
  else true

/-- `validateCRN` (UK CRN).  As in the source, only the *length* of the
normalization is checked. -/
def validateCRN (crn : Str) : Bool :=
  let cleaned := normalizeDocument crn
  if cleaned.length ≠ 8 then false
  else true

/-- `validateDocument(document, documentType, countryCode)`: the
country/type switch of the source.  The `case 'OTHER'` arm and the
`default` arm of the JS switch have the same body (`normalized.length >
0`), so they are a single final branch here; every type that is not
matched inside the `BR`/`US`/`UK` cases falls through to `return false`. -/
def validateDocument (document documentType countryCode : Str) : Bool :=
  if document.isEmpty || documentType.isEmpty || countryCode.isEmpty then false
  else
    let normalized := normalizeDocument document
    let type := toLowerStr documentType
    let country := toUpperStr countryCode
    if country = strF "BR" then
      if type = strF "cpf" then validateCPF normalized
      else if type = strF "cnpj" then validateCNPJ normalized
      else false
    else if country = strF "US" then
      if type = strF "ssn" then validateSSN normalized
      else if type = strF "ein" then validateEIN normalized
      else false
    else if country = strF "UK" then
      if type = strF "ni" then validateNI normalized
      else if type = strF "crn" then validateCRN normalized
      else false
    else !normalized.isEmpty

/-! ## Spec-side CPF characterization (for claim C5)

These definitions follow the words of spec §4.1 (BR/cpf): 11 digits after
normalization, repeated-digit strings rejected, check digit 10 from
weights 10..2 over positions 0..8 mod 11 (10/11 mapped to 0), check digit
11 from weights 11..2 over positions 0..9 mod 11 (10/11 mapped to 0). -/

/-- Spec §4.1: the value `11 - (sum mod 11)` with 10/11 mapped to 0. -/
def cpfSpecMap (sum : Nat) : Nat :=
  if 10 ≤ 11 - sum % 11 then 0 else 11 - sum % 11

/-- Spec §4.1: check digit at position 10 (index 9) of a CPF, from weights
10..2 over positions 0..8. -/
def cpfSpecDigit1 (ds : List Nat) : Nat :=
  cpfSpecMap (((ds.take 9).enum.map (fun p => p.2 * (10 - p.1))).sum)

/-- Spec §4.1: check digit at position 11 (index 10) of a CPF, from
weights 11..2 over positions 0..9. -/
def cpfSpecDigit2 (ds : List Nat) : Nat :=
  cpfSpecMap (((ds.take 10).enum.map (fun p => p.2 * (11 - p.1))).sum)

/-- Spec-side validity of a normalized CPF string: exactly 11 digits, not
one repeated digit, and the two trailing digits match the weighted-sum
rule. -/
def CpfValid (n : Str) : Prop :=
  n.length = 11 ∧ n.all Char.isDigit = true ∧ repeatedDigit n = false ∧
  (n.map charVal)[9]? = some (cpfSpecDigit1 (n.map charVal)) ∧
  (n.map charVal)[10]? = some (cpfSpecDigit2 (n.map charVal))

theorem digitsOpt_eq (l : Str) :
    digitsOpt l = if l.all Char.isDigit then some (l.map charVal) else none := by
  induction l with
  | nil => simp [digitsOpt]
  | cons c cs ih =>
    by_cases hc : c.isDigit
    · rw [show digitsOpt (c :: cs) =
          (match digitVal c, digitsOpt cs with
           | some d, some ds => some (d :: ds)
           | _, _ => none) from rfl, ih]
      by_cases hcs : cs.all Char.isDigit
      · simp [digitVal, hc, hcs]
      · simp [digitVal, hc, hcs]
    · rw [show digitsOpt (c :: cs) =
          (match digitVal c, digitsOpt cs with
           | some d, some ds => some (d :: ds)
           | _, _ => none) from rfl]
      simp [digitVal, hc, List.all_cons]
theorem cpfChecks_iff (n : Str) : cpfChecks n = true ↔ CpfValid n := by
  by_cases h11 : n.length = 11
  · by_cases hrep : repeatedDigit n
    · simp [cpfChecks, h11, hrep, CpfValid]
    · have h9lt : 9 < n.length := by omega
      have h10lt : 10 < n.length := by omega
      obtain ⟨c9, hc9⟩ : ∃ c, n[9]? = some c :=
        ⟨_, List.getElem?_eq_getElem h9lt⟩
      obtain ⟨c10, hc10⟩ : ∃ c, n[10]? = some c :=
        ⟨_, List.getElem?_eq_getElem h10lt⟩
      have htake10 : n.take 10 = n.take 9 ++ [c9] := by
        rw [List.take_succ, hc9]; rfl
      have hn : n = n.take 10 ++ [c10] := by
        conv_lhs => rw [← List.take_length (l := n), h11,
          show (11 : Nat) = 10 + 1 from rfl, List.take_succ, hc10]
        rfl
      have hall : n.all Char.isDigit
          = ((n.take 9).all Char.isDigit && (c9.isDigit && c10.isDigit)) := by
        conv_lhs => rw [hn, htake10]
        simp [List.all_append, Bool.and_assoc]
      have hg9 : (n.map charVal)[9]? = some (charVal c9) := by
        rw [List.getElem?_map, hc9]; rfl
      have hg10 : (n.map charVal)[10]? = some (charVal c10) := by
        rw [List.getElem?_map, hc10]; rfl
      clear h9lt h10lt
      by_cases hA : (n.take 9).all Char.isDigit
      · have e1 : (cpfWeightedSum n 9 10).map cpfCodeDigit
            = some (cpfSpecDigit1 (n.map charVal)) := by
          rw [cpfWeightedSum, digitsOpt_eq, if_pos hA, cpfSpecDigit1,
            ← List.map_take]
          rfl
        by_cases h9d : c9.isDigit
        · have p1 : parseAt n 9 = some (charVal c9) := by
            simp [parseAt, hc9, digitVal, h9d]
          have ht10all : (n.take 10).all Char.isDigit = true := by
            rw [htake10]; simp [List.all_append, hA, h9d]
          have e2 : (cpfWeightedSum n 10 11).map cpfCodeDigit
              = some (cpfSpecDigit2 (n.map charVal)) := by
            rw [cpfWeightedSum, digitsOpt_eq, if_pos ht10all, cpfSpecDigit2,
              ← List.map_take]
            rfl
          by_cases h10d : c10.isDigit
          · have p2 : parseAt n 10 = some (charVal c10) := by
              simp [parseAt, hc10, digitVal, h10d]
            have hand : n.all Char.isDigit = true := by
              rw [hall]; simp [hA, h9d, h10d]
            by_cases hb1 : cpfSpecDigit1 (n.map charVal) = charVal c9
            · by_cases hb2 : cpfSpecDigit2 (n.map charVal) = charVal c10
              · simp [cpfChecks, h11, hrep, e1, e2, p1, p2, optEq, hb1, hb2,
                  CpfValid, hg9, hg10, hand]
              · simp [cpfChecks, h11, hrep, e1, e2, p1, p2, optEq, hb1, hb2,
                  CpfValid, hg9, hg10, hand]
                exact fun hx => hb2 hx.symm
            · simp [cpfChecks, h11, hrep, e1, e2, p1, p2, optEq, hb1,
                CpfValid, hg9, hg10, hand]
              exact fun hx => absurd hx.symm hb1

          · have p2 : parseAt n 10 = none := by
              simp [parseAt, hc10, digitVal, h10d]
            have hand : n.all Char.isDigit = false := by
              rw [hall]; simp [h10d]
            by_cases hb1 : cpfSpecDigit1 (n.map charVal) = charVal c9
            · simp [cpfChecks, h11, hrep, e1, e2, p1, p2, optEq, hb1,
                CpfValid, hand]
            · simp [cpfChecks, h11, hrep, e1, e2, p1, p2, optEq, hb1,
                CpfValid, hand]
        · have p1 : parseAt n 9 = none := by
            simp [parseAt, hc9, digitVal, h9d]
          have hand : n.all Char.isDigit = false := by
            rw [hall]; simp [h9d]
          simp [cpfChecks, h11, hrep, e1, p1, optEq, CpfValid, hand]
      · have e1 : cpfWeightedSum n 9 10 = none := by
          rw [cpfWeightedSum, digitsOpt_eq, if_neg (by simp [hA])]; rfl
        have hand : n.all Char.isDigit = false := by
          rw [hall]; simp [hA]
        simp [cpfChecks, h11, hrep, e1, optEq, CpfValid, hand]
  · simp [cpfChecks, h11, CpfValid]

theorem validateDocument_cpf_BR (d : Str) (hd : d ≠ []) :
    validateDocument d (strF "cpf") (strF "BR")
      = cpfChecks (normalizeDocument d) := by
  have hde : d.isEmpty = false := by cases d with
    | nil => exact absurd rfl hd
    | cons c cs => rfl
  rw [validateDocument, if_neg (by simp [hde]; decide)]
  have hty : toLowerStr (strF "cpf") = strF "cpf" := by decide
  have hco : toUpperStr (strF "BR") = strF "BR" := by decide
  rw [hty, hco, if_pos rfl, if_pos rfl, validateCPF, normalizeDocument_idem]

/-! ## Data model for the identity store

`Client`, `PlatformUser`, `Account` and `LeadQualification` rows, and the
store that holds them.  Soft deletion (`deletedAt`) is a Boolean flag
`deleted`; `meta` keeps only the parts the onboarding engine reads
(the pending password and the phone metadata object). -/

/-- The nested phone object of the onboarding DTOs. -/
structure PhoneObj where
  country : Option Str := none
  countryCode : Str := []
  phoneNumber : Str := []
  formattedPhoneNumber : Str := []
deriving DecidableEq

/-- JS `phone.formattedPhoneNumber || phone.phoneNumber || undefined`. -/
def PhoneObj.strOpt (p : PhoneObj) : Option Str :=
  if !p.formattedPhoneNumber.isEmpty then some p.formattedPhoneNumber
  else if !p.phoneNumber.isEmpty then some p.phoneNumber
  else none

/-- A stored postal address row.  The field-by-field copy performed by the
services (street, number, complement, neighborhood, city, state, the
`country || countryCode || 'BR'` fallback, `zip := postalCode`) is applied
by the callers before this record is stored; no claim depends on the
individual components. -/
structure AddressRec where
  street : Str := []
  number : Str := []
  complement : Option Str := none
  neighborhood : Str := []
  city : Str := []
  state : Str := []
  country : Str := []
  zip : Str := []
deriving DecidableEq

/-- The slice of the client's `meta` JSON the onboarding engine uses. -/
structure MetaRec where
  password : Option Str := none
  phoneMeta : Option PhoneObj := none
deriving DecidableEq

/-- A `Client` row (the evolving onboarding identity). -/
structure Client where
  id : Nat
  email : Str
  document : Option Str := none
  documentType : Option Str := none
  documentCountryCode : Option Str := none
  name : Option Str := none
  phone : Option Str := none
  meta : MetaRec := {}
  accountId : Option Nat := none
  deleted : Bool := false
  address : Option AddressRec := none
deriving DecidableEq

/-- A `PlatformUser` row (the login credential created at finalize). -/
structure PlatformUser where
  id : Nat
  email : Str
  name : Str := []
  phone : Option Str := none
  passwordHash : Str := []
  document : Option Str := none
deriving DecidableEq

/-- An `Account` row. -/
structure Account where
  id : Nat
  name : Str := []
  email : Str := []
  phone : Option Str := none
  document : Option Str := none
  ownerId : Nat := 0
  planId : Option Nat := none
deriving DecidableEq

/-- A qualification answer value: a string, a number, or a string list
(the shapes the onboarding engine stores). -/
inductive AnswerVal where
  | s (v : Str)
  | n (v : Nat)
  | arr (v : List Str)
deriving DecidableEq

/-- JS truthiness of an answer value (`''` and `0` are falsy, an array is
always truthy). -/
def AnswerVal.truthy : AnswerVal → Bool
  | .s v => !v.isEmpty
  | .n v => v != 0
  | .arr _ => true

/-- A `LeadQualification` row: one answer per question key per client. -/
structure QualRec where
  clientId : Nat
  accountId : Option Nat := none
  questionKey : Str
  answer : AnswerVal
deriving DecidableEq

/-- The persistent store backing the services. -/
structure Store where
  clients : List Client := []
  platformUsers : List PlatformUser := []
  accounts : List Account := []
  quals : List QualRec := []
  nextClientId : Nat := 1
  nextUserId : Nat := 1
  nextAccountId : Nat := 1
deriving DecidableEq

/-- JS string truthiness of an optional string: present and non-empty. -/
def truthyS : Option Str → Bool
  | some s => !s.isEmpty
  | none => false

/-- `prisma.client.findFirst({where: {email, deletedAt: null}})`, as used
by `ClientsService.findByEmail` and by the collision checks. -/
def findClientByEmail (st : Store) (email : Str) : Option Client :=
  st.clients.find? (fun c => !c.deleted && c.email == email)

/-- `prisma.client.findFirst({where: {id}})` (`ClientsService` updates are
keyed by id). -/
def Store.getClient (st : Store) (id : Nat) : Option Client :=
  st.clients.find? (fun c => c.id == id)

/-- Replace the client row with the given id. -/
def Store.putClient (st : Store) (id : Nat) (c : Client) : Store :=
  { st with clients := st.clients.map (fun x => if x.id == id then c else x) }

/-! ## `ClientsService.create` / `ClientsService.update`
(`src/services/clientsService.ts`)

Both collision checks on `document` query `{document, deletedAt: null}`
with **no** `documentCountryCode` condition — document uniqueness is
global at save time ("For now, we'll validate document uniqueness
globally", lines 139–140).  Each error constructor stands for the JS
`throw new Error(message)` with the fixed message given in its comment. -/

inductive CreateErr where
  | emailRequired       -- 'Email is required'
  | clientEmailExists   -- 'Client with this email already exists'
  | userEmailExists     -- 'A user with this email already exists'
  | documentExists      -- 'Client with this document already exists'
deriving DecidableEq

/-- The fields of `CreateClientDto` that `saveOnboardingData` passes. -/
structure CreateDto where
  email : Str := []
  document : Option Str := none
  name : Option Str := none
  phone : Option PhoneObj := none
deriving DecidableEq

/-- `ClientsService.create`. -/
def clientsCreate (dto : CreateDto) (st : Store) : Except CreateErr (Client × Store) :=
  if dto.email.isEmpty then .error .emailRequired
  else if (st.clients.any (fun c => !c.deleted && c.email == dto.email)) then
    .error .clientEmailExists
  else if st.platformUsers.any (fun u => u.email == dto.email) then
    .error .userEmailExists
  else if truthyS dto.document &&
      st.clients.any (fun c => !c.deleted && c.document == dto.document) then
    .error .documentExists
  else
    let c : Client :=
      { id := st.nextClientId
        email := dto.email
        document := if truthyS dto.document then dto.document else none
        name := if truthyS dto.name then dto.name else none
        phone := dto.phone.bind PhoneObj.strOpt
        meta := { phoneMeta := dto.phone }
        accountId := none
        deleted := false
        address := none }
    .ok (c, { st with clients := st.clients ++ [c], nextClientId := st.nextClientId + 1 })

inductive UpdateErr where
  | clientEmailExists   -- 'Client with this email already exists'
  | userEmailExists     -- 'A user with this email already exists'
  | documentExists      -- 'Client with this document already exists'
  | recordNotFound      -- prisma update on a missing id
deriving DecidableEq

/-- The fields of `UpdateClientDto` that the onboarding engine passes. -/
structure UpdateDto where
  email : Option Str := none
  document : Option Str := none
  documentType : Option Str := none
  documentCountryCode : Option Str := none
  name : Option Str := none
  accountId : Option Nat := none
  phone : Option PhoneObj := none
  meta : Option MetaRec := none
  address : Option AddressRec := none
deriving DecidableEq

/-- The `updateData` application of `ClientsService.update`: every field
sent (`!== undefined`) overwrites the stored one. -/
def applyUpdate (c : Client) (dto : UpdateDto) : Client :=
  { c with
    email := match dto.email with | some e => e | none => c.email
    document := if dto.document.isSome then dto.document else c.document
    documentType := if dto.documentType.isSome then dto.documentType else c.documentType
    documentCountryCode :=
      if dto.documentCountryCode.isSome then dto.documentCountryCode
      else c.documentCountryCode
    name := if dto.name.isSome then dto.name else c.name
    accountId := if dto.accountId.isSome then dto.accountId else c.accountId
    phone :=
      if (dto.phone.bind PhoneObj.strOpt).isSome then dto.phone.bind PhoneObj.strOpt
      else c.phone
    meta :=
      if dto.meta.isSome || dto.phone.isSome then
        { (dto.meta.getD {}) with
          phoneMeta := match dto.phone with
            | some p => some p
            | none => (dto.meta.getD {}).phoneMeta }
      else c.meta
    address := match dto.address with | some a => some a | none => c.address }

/-- `ClientsService.update`: email collision check (first non-deleted
match, excluding the updated id), platform-user email check, *global*
document collision check, then the field updates. -/
def clientsUpdate (id : Nat) (dto : UpdateDto) (st : Store) :
    Except UpdateErr (Client × Store) :=
  if truthyS dto.email &&
      (match st.clients.find? (fun c => !c.deleted && c.email == dto.email.getD []) with
       | some ex => ex.id != id
       | none => false) then .error .clientEmailExists
  else if truthyS dto.email &&
      st.platformUsers.any (fun u => u.email == dto.email.getD []) then
    .error .userEmailExists
  else if truthyS dto.document &&
      (match st.clients.find? (fun c => !c.deleted && c.document == dto.document) with
       | some ex => ex.id != id
       | none => false) then .error .documentExists
  else
    match st.getClient id with
    | none => .error .recordNotFound
    | some c =>
      let c2 := applyUpdate c dto
      .ok (c2, st.putClient id c2)

/-! ## Onboarding error taxonomy (`src/common/classes.ts` + spec §7) -/

/-- The typed onboarding errors of `src/common/classes.ts`, plus
`VerificationFailed` (present in the spec §7 taxonomy, with no
corresponding class in the source) and `Generic` standing for a plain JS
`new Error(message)`. -/
inductive OnbError where
  | EmailAlreadyExists (email : Str)
  | DocumentAlreadyExists (documentType countryCode : Str)
  | InvalidDocument (message : Str)
  | MissingRequiredFields (fields : List Str)
  | WeakPassword
  | EmailNotVerified
  | PhoneNotVerified
  | VerificationFailed
  | Generic (message : Str)
deriving DecidableEq

/-- A typed (taxonomy) error, as opposed to a plain untyped `Error`. -/
def OnbError.isTyped : OnbError → Bool
  | .Generic _ => false
  | _ => true

/-- `Modelled from the spec:` the Verification Gateway (§2, §6).  Its
implementation (`src/services/verificationService.ts`) is not among the
sources; the engine only consumes `getVerificationStatus` (the two
`…Verified` flags) and `verifyPhone`/`verifyEmail`, whose rejection is
modelled as `some message` (the thrown error's message).  Code *sends*
are fire-and-forget (§4.2 steps 4–5) and have no observable effect here. -/
structure Gateway where
  emailVerified : Nat → Bool
  phoneVerified : Nat → Bool
  verifyPhone : Nat → Str → Option Str
  verifyEmail : Nat → Str → Option Str

/-! ## Step inference -/

/-- Which signals are populated, for the two step-inference chains.  For
the save path these are the DTO fields of the current submission plus the
client's `accountId`; for the progress resolver they are the stored
fields, the truthiness of the stored qualification answers, and the two
verification flags. -/
structure FieldsPresent where
  account : Bool := false
  address : Bool := false
  businessOptions : Bool := false
  businessDuration : Bool := false
  workingCapital : Bool := false
  financialOperations : Bool := false
  activeCustomers : Bool := false
  password : Bool := false
  emailCode : Bool := false
  phoneCode : Bool := false
  phone : Bool := false
  name : Bool := false
  document : Bool := false
  email : Bool := false
  emailVerified : Bool := false
  phoneVerified : Bool := false
deriving DecidableEq

/-- The step chain at the end of `saveOnboardingData`
(`onboardingService.ts` lines 277–305): the §4.2 step-8 priority list. -/
def stepFromSave (f : FieldsPresent) : Str :=
  if f.account then strF "completed"
  else if f.address then strF "address"
  else if f.businessOptions then strF "business_options"
  else if f.businessDuration then strF "business_duration"
  else if f.workingCapital then strF "capital"
  else if f.financialOperations then strF "financial_operations"
  else if f.activeCustomers then strF "active_customers"
  else if f.password then strF "password"
  else if f.emailCode then strF "email_verification"
  else if f.phoneCode then strF "phone_verification"
  else if f.phone then strF "phone"
  else if f.name then strF "name"
  else if f.document then strF "document"
  else strF "email"

/-- The step chain of `getOnboardingProgress` (`onboardingService.ts`
lines 680–711): initial value `'document'`, no password branch,
`email_verification` keyed on the *verified* flag, an `email` branch
before `phone_verification`. -/
def stepFromProgress (f : FieldsPresent) : Str :=
  if f.account then strF "completed"
  else if f.address then strF "address"
  else if f.businessOptions then strF "business_options"
  else if f.businessDuration then strF "business_duration"
  else if f.workingCapital then strF "capital"
  else if f.financialOperations then strF "financial_operations"
  else if f.activeCustomers then strF "active_customers"
  else if f.emailVerified then strF "email_verification"
  else if f.email then strF "email"
  else if f.phoneVerified then strF "phone_verification"
  else if f.phone then strF "phone"
  else if f.name then strF "name"
  else strF "document"

/-- `getOnboardingProgress` business-options parsing (lines 716–719):
`Array.isArray(bo) ? bo : bo ? [bo] : undefined`. -/
def parsedBusinessOptions : Option AnswerVal → Option (List AnswerVal)
  | some (.arr l) => some (l.map AnswerVal.s)
  | some a => if a.truthy then some [a] else none
  | none => none

/-! ## `saveOnboardingData` (`src/services/onboardingService.ts` 52–315) -/

/-- The address object of the onboarding DTOs. -/
structure AddressDto where
  postalCode : Str := []
  street : Str := []
  neighborhood : Str := []
  city : Str := []
  state : Str := []
  country : Str := []
  countryCode : Option Str := none
  number : Str := []
  complement : Option Str := none
deriving DecidableEq

/-- The onboarding save DTO (`onboardingSaveSchema`). -/
structure SaveDto where
  email : Str := []
  document : Option Str := none
  documentType : Option Str := none
  documentCountryCode : Option Str := none
  name : Option Str := none
  phone : Option PhoneObj := none
  code : Option Str := none
  emailCode : Option Str := none
  password : Option Str := none
  address : Option AddressDto := none
  activeCustomers : Option Nat := none
  financialOperations : Option Nat := none
  workingCapital : Option Nat := none
  businessDuration : Option Nat := none
  businessOptions : Option (List Str) := none
deriving DecidableEq

/-- JS `a || b` on strings. -/
def jsOr (a b : Str) : Str := if a.isEmpty then b else a

/-- The address mapping of the save/submit paths:
`country: dto.address.country || dto.address.countryCode || 'BR'`,
`zip: dto.address.postalCode`. -/
def addrToRec (a : AddressDto) : AddressRec :=
  { street := a.street
    number := a.number
    complement := a.complement
    neighborhood := a.neighborhood
    city := a.city
    state := a.state
    country := jsOr a.country (jsOr (a.countryCode.getD []) (strF "BR"))
    zip := a.postalCode }

/-- `if (!savedFields.includes(f)) savedFields.push(f)`. -/
def savedPush (fields : List Str) (f : Str) : List Str :=
  if fields.contains f then fields else fields ++ [f]

/-- How `saveOnboardingData` maps a `ClientsService.create` failure:
messages containing `'email already exists'` become the typed
`EmailAlreadyExistsError`; everything else is rethrown unchanged. -/
def mapCreateErr (email : Str) : CreateErr → OnbError
  | .clientEmailExists => .EmailAlreadyExists email
  | .userEmailExists => .EmailAlreadyExists email
  | .emailRequired => .Generic (strF "Email is required")
  | .documentExists => .Generic (strF "Client with this document already exists")

/-- `ClientsService.update` failures are not caught by the onboarding
engine: they propagate as the original untyped errors. -/
def mapUpdateErr : UpdateErr → OnbError
  | .clientEmailExists => .Generic (strF "Client with this email already exists")
  | .userEmailExists => .Generic (strF "A user with this email already exists")
  | .documentExists => .Generic (strF "Client with this document already exists")
  | .recordNotFound => .Generic (strF "Record to update not found")

/-- The result of a save call (`clientId`, `accountId`, derived step,
saved fields; the constant success message is omitted). -/
structure SaveResult where
  clientId : Nat
  accountId : Option Nat := none
  step : Str
  savedFields : List Str
deriving DecidableEq

/-- `Modelled from the spec:` the Qualification Recorder (§2, §6, §3
`QualificationAnswer`).  `QualificationsService` is not among the
sources; per the spec it upserts one answer per question key per subject
(last write wins), carrying the optional account id. -/
def qualsUpsert (clientId : Nat) (accountId : Option Nat)
    (answers : List (Str × AnswerVal)) (st : Store) : Store :=
  answers.foldl
    (fun acc p =>
      if acc.quals.any (fun q => q.clientId == clientId && q.questionKey == p.1) then
        { acc with quals := acc.quals.map (fun q =>
            if q.clientId == clientId && q.questionKey == p.1 then
              { q with answer := p.2, accountId := accountId }
            else q) }
      else
        { acc with quals := acc.quals ++
            [{ clientId := clientId, accountId := accountId,
               questionKey := p.1, answer := p.2 }] })
    st

/-- The qualification answers built from a submission (save lines
190–236 and submit lines 474–513): the four metrics when sent
(`!== undefined`) and the business options when non-empty. -/
def qualAnswersOf (activeCustomers financialOperations workingCapital businessDuration :
    Option Nat) (businessOptions : Option (List Str)) : List (Str × AnswerVal) :=
  (match activeCustomers with
   | some v => [(strF "active_customers", AnswerVal.n v)]
   | none => []) ++
  (match financialOperations with
   | some v => [(strF "financial_operations", AnswerVal.n v)]
   | none => []) ++
  (match workingCapital with
   | some v => [(strF "working_capital", AnswerVal.n v)]
   | none => []) ++
  (match businessDuration with
   | some v => [(strF "business_duration", AnswerVal.n v)]
   | none => []) ++
  (match businessOptions with
   | some l => if l.length > 0 then [(strF "business_type", AnswerVal.arr l)] else []
   | none => [])

/-- Save step 1: resolve the client by email, or create it with the
email/document/name/phone of the submission; a create failure whose
message contains `'email already exists'` becomes `EmailAlreadyExists`. -/
def saveResolve (dto : SaveDto) (st : Store) :
    Except (OnbError × Store) (Client × Store × List Str) :=
  match findClientByEmail st dto.email with
  | some c => .ok (c, st, [])
  | none =>
    match clientsCreate
        { email := dto.email, document := dto.document,
          name := dto.name, phone := dto.phone } st with
    | .error e => .error (mapCreateErr dto.email e, st)
    | .ok (c, st2) =>
      .ok (c, st2,
        [strF "email"]
        ++ (if truthyS dto.document then [strF "document"] else [])
        ++ (if truthyS dto.name then [strF "name"] else [])
        ++ (if dto.phone.isSome then [strF "phone"] else []))

/-- Save step 2: update the name when sent and different. -/
def saveNameStep (dto : SaveDto) :
    Client × Store × List Str → Except (OnbError × Store) (Client × Store × List Str) :=
  fun s =>
    if truthyS dto.name && dto.name != s.1.name then
      match clientsUpdate s.1.id { name := dto.name } s.2.1 with
      | .error e => .error (mapUpdateErr e, s.2.1)
      | .ok (c2, st2) => .ok (c2, st2, savedPush s.2.2 (strF "name"))
    else .ok s

/-- Save step 2 (document): update document/type/country when a document
is sent; the type and country ride along only when truthy. -/
def saveDocumentStep (dto : SaveDto) :
    Client × Store × List Str → Except (OnbError × Store) (Client × Store × List Str) :=
  fun s =>
    if truthyS dto.document then
      match clientsUpdate s.1.id
          { document := dto.document
            documentType := if truthyS dto.documentType then dto.documentType else none
            documentCountryCode :=
              if truthyS dto.documentCountryCode then dto.documentCountryCode else none }
          s.2.1 with
      | .error e => .error (mapUpdateErr e, s.2.1)
      | .ok (c2, st2) =>
        let f1 := savedPush s.2.2 (strF "document")
        let f2 := if truthyS dto.documentType then savedPush f1 (strF "documentType") else f1
        let f3 := if truthyS dto.documentCountryCode then
          savedPush f2 (strF "documentCountryCode") else f2
        .ok (c2, st2, f3)
    else .ok s

/-- Save step 3: update the phone when sent, non-empty and different (the
subsequent verification send is fire-and-forget and unmodelled). -/
def savePhoneStep (dto : SaveDto) :
    Client × Store × List Str → Except (OnbError × Store) (Client × Store × List Str) :=
  fun s =>
    match dto.phone with
    | some p =>
      let phoneString := jsOr p.formattedPhoneNumber p.phoneNumber
      if !phoneString.isEmpty && some phoneString != s.1.phone then
        match clientsUpdate s.1.id { phone := some p } s.2.1 with
        | .error e => .error (mapUpdateErr e, s.2.1)
        | .ok (c2, st2) => .ok (c2, st2, savedPush s.2.2 (strF "phone"))
      else .ok s
    | none => .ok s

/-- Save steps 4–5: forward a phone code to the gateway; a rejection is
rethrown as `new Error('Phone verification failed: ' + message)`. -/
def savePhoneVerify (gw : Gateway) (dto : SaveDto) :
    Client × Store × List Str → Except (OnbError × Store) (Client × Store × List Str) :=
  fun s =>
    if truthyS dto.code then
      match gw.verifyPhone s.1.id (dto.code.getD []) with
      | some m => .error (.Generic (strF "Phone verification failed: " ++ m), s.2.1)
      | none => .ok s
    else .ok s

/-- Save step 6: set the email if the stored one is empty (the
(re)sending of the email verification code has no observable effect
here). -/
def saveEmailSet (dto : SaveDto) :
    Client × Store × List Str → Except (OnbError × Store) (Client × Store × List Str) :=
  fun s =>
    if !dto.email.isEmpty && s.1.email.isEmpty then
      match clientsUpdate s.1.id { email := some dto.email } s.2.1 with
      | .error e => .error (mapUpdateErr e, s.2.1)
      | .ok (c2, st2) => .ok (c2, st2, savedPush s.2.2 (strF "email"))
    else .ok s

/-- Save steps 7–8: forward an email code to the gateway; a rejection is
rethrown as `new Error('Email verification failed: ' + message)`. -/
def saveEmailVerify (gw : Gateway) (dto : SaveDto) :
    Client × Store × List Str → Except (OnbError × Store) (Client × Store × List Str) :=
  fun s =>
    if truthyS dto.emailCode then
      match gw.verifyEmail s.1.id (dto.emailCode.getD []) with
      | some m => .error (.Generic (strF "Email verification failed: " ++ m), s.2.1)
      | none => .ok (s.1, s.2.1, savedPush s.2.2 (strF "emailCode"))
    else .ok s

/-- Save step 9: stash the password in `meta` (validated only at submit). -/
def savePasswordStep (dto : SaveDto) :
    Client × Store × List Str → Except (OnbError × Store) (Client × Store × List Str) :=
  fun s =>
    if truthyS dto.password then
      match clientsUpdate s.1.id
          { meta := some { s.1.meta with password := dto.password } } s.2.1 with
      | .error e => .error (mapUpdateErr e, s.2.1)
      | .ok (c2, st2) => .ok (c2, st2, savedPush s.2.2 (strF "password"))
    else .ok s

/-- Save steps 10–14: record the qualification answers (account id still
unset) and mark their fields saved. -/
def saveQualStep (dto : SaveDto) :
    Client × Store × List Str → Except (OnbError × Store) (Client × Store × List Str) :=
  fun s =>
    let qa := qualAnswersOf dto.activeCustomers dto.financialOperations
      dto.workingCapital dto.businessDuration dto.businessOptions
    let f1 := if dto.activeCustomers.isSome then savedPush s.2.2 (strF "activeCustomers")
      else s.2.2
    let f2 := if dto.financialOperations.isSome then savedPush f1 (strF "financialOperations")
      else f1
    let f3 := if dto.workingCapital.isSome then savedPush f2 (strF "workingCapital") else f2
    let f4 := if dto.businessDuration.isSome then savedPush f3 (strF "businessDuration")
      else f3
    let f5 := if (match dto.businessOptions with
        | some l => decide (l.length > 0)
        | none => false) then savedPush f4 (strF "businessOptions") else f4
    if qa.length > 0 then .ok (s.1, qualsUpsert s.1.id none qa s.2.1, f5)
    else .ok (s.1, s.2.1, f5)

/-- Save steps 15–17: persist the address when sent. -/
def saveAddressStep (dto : SaveDto) :
    Client × Store × List Str → Except (OnbError × Store) (Client × Store × List Str) :=
  fun s =>
    match dto.address with
    | some a =>
      match clientsUpdate s.1.id { address := some (addrToRec a) } s.2.1 with
      | .error e => .error (mapUpdateErr e, s.2.1)
      | .ok (c2, st2) => .ok (c2, st2, savedPush s.2.2 (strF "address"))
    | none => .ok s

/-- The `FieldsPresent` snapshot the save step chain evaluates: the DTO
presence flags plus the client's `accountId` (lines 278–305). -/
def saveStepFlags (dto : SaveDto) (c : Client) : FieldsPresent :=
  { account := c.accountId.isSome
    address := dto.address.isSome
    businessOptions := match dto.businessOptions with
      | some l => decide (l.length > 0)
      | none => false
    businessDuration := dto.businessDuration.isSome
    workingCapital := dto.workingCapital.isSome
    financialOperations := dto.financialOperations.isSome
    activeCustomers := dto.activeCustomers.isSome
    password := truthyS dto.password
    emailCode := truthyS dto.emailCode
    phoneCode := truthyS dto.code
    phone := dto.phone.isSome
    name := truthyS dto.name
    document := truthyS dto.document }

/-- `saveOnboardingData`: the full progressive-save pipeline.  A thrown
error carries the store as already written (no transaction, no
rollback). -/
def saveOnboardingData (gw : Gateway) (dto : SaveDto) (st : Store) :
    Except (OnbError × Store) (SaveResult × Store) := do
  let s1 ← saveResolve dto st
  let s2 ← saveNameStep dto s1
  let s3 ← saveDocumentStep dto s2
  let s4 ← savePhoneStep dto s3
  let s5 ← savePhoneVerify gw dto s4
  let s6 ← saveEmailSet dto s5
  let s7 ← saveEmailVerify gw dto s6
  let s8 ← savePasswordStep dto s7
  let s9 ← saveQualStep dto s8
  let s10 ← saveAddressStep dto s9
  let fieldsFinal := if (qualAnswersOf dto.activeCustomers dto.financialOperations
      dto.workingCapital dto.businessDuration dto.businessOptions).length > 0 then
    savedPush s10.2.2 (strF "businessData") else s10.2.2
  .ok ({ clientId := s10.1.id
         accountId := s10.1.accountId
         step := stepFromSave (saveStepFlags dto s10.1)
         savedFields := fieldsFinal }, s10.2.1)

/-! ## `submitOnboarding` (`src/services/onboardingService.ts` 320–540) -/

/-- The onboarding submit DTO (`onboardingSubmitSchema`).  `email`,
`password` and `name` are plain strings (the schema requires them; the
service re-checks their truthiness, so the empty string stands for a
missing value); `termsAccepted`/`privacyAccepted` are carried but — as in
the service — never read by `submitOnboarding` itself. -/
structure SubmitDto where
  email : Str := []
  password : Str := []
  name : Str := []
  document : Option Str := none
  documentType : Option Str := none
  documentCountryCode : Option Str := none
  phone : Option PhoneObj := none
  address : Option AddressDto := none
  activeCustomers : Option Nat := none
  financialOperations : Option Nat := none
  workingCapital : Option Nat := none
  businessDuration : Option Nat := none
  businessOptions : List Str := []
  termsAccepted : Bool := false
  privacyAccepted : Bool := false
  accountName : Option Str := none
  accountEmail : Option Str := none
  planId : Option Nat := none
deriving DecidableEq

/-- The missing-required-fields list of `submitOnboarding` (lines
329–334): email, password, name, and a non-empty business-option list —
nothing else is checked. -/
def submitMissingFields (dto : SubmitDto) : List Str :=
  (if dto.email.isEmpty then [strF "email"] else []) ++
  (if dto.password.isEmpty then [strF "password"] else []) ++
  (if dto.name.isEmpty then [strF "name"] else []) ++
  (if dto.businessOptions.isEmpty then [strF "businessOptions"] else [])

/-- The symbol class `[@$!%*?&]` of the password regex. -/
def passwordSymbol (ch : Char) : Bool :=
  ch == '@' || ch == '$' || ch == '!' || ch == '%' || ch == '*' ||
  ch == '?' || ch == '&'

/-- One character of the class `[A-Za-z\d@$!%*?&]`. -/
def passwordClassChar (ch : Char) : Bool :=
  ch.isAlpha || ch.isDigit || passwordSymbol ch

/-- The password test of `submitOnboarding` (line 340): the regex
`/^(?=.*[a-z])(?=.*[A-Z])(?=.*\d)(?=.*[@$!%*?&])[A-Za-z\d@$!%*?&]/`.
The four lookaheads require one character of each class *anywhere*; the
trailing class matches exactly **one** character at position 0 — the
regex has no `{8,}` quantifier and no `$` anchor, so no minimum length is
enforced. -/
def jsPasswordRegexTest (p : Str) : Bool :=
  p.any Char.isLower && p.any Char.isUpper && p.any Char.isDigit &&
  p.any passwordSymbol &&
  (match p with
   | [] => false
   | ch :: _ => passwordClassChar ch)

/-- `Modelled from the spec:` the password strength rule of §4.3
precondition 2 — "minimum 8 characters and at least one lowercase, one
uppercase, one digit, one symbol from a fixed punctuation set" — as a
comparison point for claim C1. -/
def specStrongPassword (p : Str) : Bool :=
  decide (8 ≤ p.length) && p.any Char.isLower && p.any Char.isUpper &&
  p.any Char.isDigit && p.any passwordSymbol

/-- The finalize-time document collision check (lines 377–385): same
normalized document, same `documentCountryCode`, not deleted, another
client — the only *country-scoped* uniqueness check in the engine. -/
def submitDocCollision (st : Store) (selfId : Nat) (nd cc : Str) : Bool :=
  st.clients.any (fun c =>
    c.document == some nd && c.documentCountryCode == some cc &&
    !c.deleted && c.id != selfId)

/-- The password hash: a black-box one-way function (bcrypt is out of
scope, spec §1). -/
def bcryptHash (p : Str) : Str := strF "bcrypt$" ++ p

/-- `Modelled from the spec:` `AccountsService.create` (§4.3, §6) — the
service file is not among the sources; per the spec it durably creates
the account row owned by the new credential. -/
def accountsCreate (name email : Str) (phone document : Option Str)
    (ownerId : Nat) (planId : Option Nat) (st : Store) : Account × Store :=
  let a : Account :=
    { id := st.nextAccountId, name := name, email := email, phone := phone,
      document := document, ownerId := ownerId, planId := planId }
  (a, { st with accounts := st.accounts ++ [a], nextAccountId := st.nextAccountId + 1 })

/-- `Modelled from the spec:` the Token Issuer (§6) — `AuthService` is not
among the sources; tokens are opaque strings bound to the
credential/account pair. -/
def generateTokens (userId accountId : Nat) : Str × Str :=
  (strF "access." ++ strF (toString userId) ++ strF "." ++ strF (toString accountId),
   strF "refresh." ++ strF (toString userId) ++ strF "." ++ strF (toString accountId))

/-- The submit result bundle. -/
structure SubmitResult where
  userId : Nat
  accountId : Nat
  accessToken : Str
  refreshToken : Str
deriving DecidableEq

/-- The document section of `submitOnboarding` (lines 360–401): triple
completeness, `validateDocument`, the country-scoped collision check,
then a `ClientsService.update` with the normalized triple (whose own
*global* document check can still fail). -/
def submitDocumentSection (dto : SubmitDto) (clientId : Nat) (st : Store) :
    Except (OnbError × Store) Store :=
  if truthyS dto.document then
    if !truthyS dto.documentType || !truthyS dto.documentCountryCode then
      .error (.InvalidDocument
        (strF "documentType and documentCountryCode are required when document is provided"), st)
    else if !validateDocument (dto.document.getD []) (dto.documentType.getD [])
        (dto.documentCountryCode.getD []) then
      .error (.InvalidDocument (strF "Invalid document for country"), st)
    else
      let nd := normalizeDocument (dto.document.getD [])
      if submitDocCollision st clientId nd (dto.documentCountryCode.getD []) then
        .error (.DocumentAlreadyExists (dto.documentType.getD [])
          (dto.documentCountryCode.getD []), st)
      else
        match clientsUpdate clientId
            { document := some nd, documentType := dto.documentType,
              documentCountryCode := dto.documentCountryCode } st with
        | .error e => .error (mapUpdateErr e, st)
        | .ok (_, st2) => .ok st2
  else .ok st

/-- The address persistence of the submit tail (lines 453–472). -/
def submitAddressStep (dto : SubmitDto) (clientId : Nat) (st5 : Store) :
    Except (OnbError × Store) Store :=
  match dto.address with
  | some a =>
    match clientsUpdate clientId { address := some (addrToRec a) } st5 with
    | .error e => .error (mapUpdateErr e, st5)
    | .ok (_, st6) => .ok st6
  | none => .ok st5

/-- The creation tail of `submitOnboarding` (lines 403–539): platform-user
email uniqueness, hash, create user and account, link the client, persist
the address, re-key the qualification answers, issue tokens. -/
def submitCreateTail (dto : SubmitDto) (client : Client) (st2 : Store) :
    Except (OnbError × Store) (SubmitResult × Store) :=
  if st2.platformUsers.any (fun u => u.email == dto.email) then
    .error (.EmailAlreadyExists dto.email, st2)
  else
    let phoneOpt := match dto.phone.bind PhoneObj.strOpt with
      | some ps => some ps
      | none => client.phone
    let user : PlatformUser :=
      { id := st2.nextUserId, email := dto.email, name := dto.name,
        phone := phoneOpt, passwordHash := bcryptHash dto.password,
        document := if truthyS dto.document then
          some (normalizeDocument (dto.document.getD [])) else none }
    let st3 :=
      { st2 with
        platformUsers := st2.platformUsers ++ [user]
        nextUserId := st2.nextUserId + 1 }
    let accName := jsOr (dto.accountName.getD []) (jsOr dto.name (strF "My Account"))
    let accEmail := jsOr (dto.accountEmail.getD []) dto.email
    let acc := accountsCreate accName accEmail phoneOpt
      (if truthyS dto.document then some (normalizeDocument (dto.document.getD []))
       else none) user.id dto.planId st3
    match clientsUpdate client.id { accountId := some acc.1.id } acc.2 with
    | .error e => .error (mapUpdateErr e, acc.2)
    | .ok (_, st5) =>
      match submitAddressStep dto client.id st5 with
      | .error e => .error e
      | .ok st6 =>
        let qa := qualAnswersOf dto.activeCustomers dto.financialOperations
          dto.workingCapital dto.businessDuration (some dto.businessOptions)
        let st7 := if qa.length > 0 then qualsUpsert client.id (some acc.1.id) qa st6
          else st6
        let toks := generateTokens user.id acc.1.id
        .ok ({ userId := user.id, accountId := acc.1.id,
               accessToken := toks.1, refreshToken := toks.2 }, st7)

/-- `submitOnboarding`: the finalize pipeline, in source order —
missing-fields check, password regex, client lookup, email/phone
verification flags, document section, then the creation tail. -/
def submitOnboarding (gw : Gateway) (dto : SubmitDto) (st : Store) :
    Except (OnbError × Store) (SubmitResult × Store) :=
  let missing := submitMissingFields dto
  if missing.length > 0 then .error (.MissingRequiredFields missing, st)
  else if !jsPasswordRegexTest dto.password then .error (.WeakPassword, st)
  else
    match findClientByEmail st dto.email with
    | none => .error
        (.Generic (strF "Client not found. Please complete onboarding steps first."), st)
    | some client =>
      if !gw.emailVerified client.id then .error (.EmailNotVerified, st)
      else if !gw.phoneVerified client.id then .error (.PhoneNotVerified, st)
      else
        match submitDocumentSection dto client.id st with
        | .error e => .error e
        | .ok st2 => submitCreateTail dto client st2

/-- The error kind of a finished call, if it failed. -/
def errKindOf {α : Type} : Except (OnbError × Store) α → Option OnbError
  | .error (e, _) => some e
  | .ok _ => none

/-! ## Claims about the document validator -/

theorem ne_nil_isEmpty_false {s : Str} (h : s ≠ []) : s.isEmpty = false := by
  cases s with
  | nil => exact absurd rfl h
  | cons c cs => rfl

/-- **C5.** `validate(d, 'cpf', 'BR')` holds exactly when the normalized
string is 11 digits, not a single repeated digit, and both check digits
match the weighted-sum rule of spec §4.1; in particular the repeated
vector `111.111.111-11` is rejected and `05480695142` is accepted, both
computed from the checksum definition. -/
theorem claim_C5_cpf_rule :
    (∀ d : Str, validateDocument d (strF "cpf") (strF "BR") = true ↔
      CpfValid (normalizeDocument d))
    ∧ validateDocument (strF "111.111.111-11") (strF "cpf") (strF "BR") = false
    ∧ validateDocument (strF "05480695142") (strF "cpf") (strF "BR") = true := by
  refine ⟨fun d => ?_, by decide, by decide⟩
  by_cases hd : d = []
  · subst hd
    constructor
    · intro h
      exact absurd h (by decide)
    · intro h
      exact absurd h.1 (by decide)
  · rw [validateDocument_cpf_BR d hd]
    exact cpfChecks_iff (normalizeDocument d)

/-- **C6.** The SSN and CRN validators check only the *length* of the
normalization, so all-letter inputs of the right length are accepted for
US/ssn and UK/crn — against the claim (and the validators' own comments)
that the normalization must consist of digits. -/
theorem claim_C6_letters_accepted :
    validateDocument (strF "ABCDEFGHI") (strF "ssn") (strF "US") = true
    ∧ validateDocument (strF "ABCDEFGH") (strF "crn") (strF "UK") = true
    ∧ (normalizeDocument (strF "ABCDEFGHI")).all Char.isAlpha = true
    ∧ (normalizeDocument (strF "ABCDEFGH")).all Char.isAlpha = true := by
  decide

/-- **C7 (counterexample).** `validate("123", "other", "BR")` is `false`
although the normalized document is non-empty: the claim that a
documentType of `'other'` always falls under the free-text rule fails —
inside the `BR` switch arm the type `'other'` matches nothing and falls
through to `return false`. -/
theorem claim_C7_counterexample :
    validateDocument (strF "123") (strF "other") (strF "BR") = false
    ∧ (normalizeDocument (strF "123")).isEmpty = false := by
  decide

/-- **C7 (amended).** The free-text rule is keyed on the *country* only:
for a country other than BR/US/UK (after upper-casing) any type is valid
iff the normalization is non-empty; within BR/US/UK every type other than
the two listed ones — including `'other'` — is invalid. -/
theorem claim_C7_rule_table (d t c : Str) (hd : d ≠ []) (ht : t ≠ []) (hc : c ≠ []) :
    (toUpperStr c ≠ strF "BR" → toUpperStr c ≠ strF "US" → toUpperStr c ≠ strF "UK" →
      validateDocument d t c = !(normalizeDocument d).isEmpty)
    ∧ (toUpperStr c = strF "BR" → toLowerStr t ≠ strF "cpf" → toLowerStr t ≠ strF "cnpj" →
      validateDocument d t c = false)
    ∧ (toUpperStr c = strF "US" → toLowerStr t ≠ strF "ssn" → toLowerStr t ≠ strF "ein" →
      validateDocument d t c = false)
    ∧ (toUpperStr c = strF "UK" → toLowerStr t ≠ strF "ni" → toLowerStr t ≠ strF "crn" →
      validateDocument d t c = false) := by
  have hg : (d.isEmpty || t.isEmpty || c.isEmpty) = false := by
    rw [ne_nil_isEmpty_false hd, ne_nil_isEmpty_false ht, ne_nil_isEmpty_false hc]
    rfl
  refine ⟨fun h1 h2 h3 => ?_, fun h1 h2 h3 => ?_, fun h1 h2 h3 => ?_, fun h1 h2 h3 => ?_⟩
  · rw [validateDocument, if_neg (by simp [hg])]
    rw [if_neg h1, if_neg h2, if_neg h3]
  · rw [validateDocument, if_neg (by simp [hg])]
    rw [if_pos h1, if_neg h2, if_neg h3]
  · rw [validateDocument, if_neg (by simp [hg])]
    rw [if_neg (h1 ▸ (by decide : strF "US" ≠ strF "BR")), if_pos h1, if_neg h2, if_neg h3]
  · rw [validateDocument, if_neg (by simp [hg])]
    rw [if_neg (h1 ▸ (by decide : strF "UK" ≠ strF "BR")),
      if_neg (h1 ▸ (by decide : strF "UK" ≠ strF "US")), if_pos h1, if_neg h2, if_neg h3]

/-- Witness for C7: the amended rule evaluated at concrete inputs — an
unknown country accepts a free-text identifier, and BR with type
`'other'` is invalid. -/
theorem claim_C7_rule_table_witness :
    validateDocument (strF "12") (strF "passport") (strF "FR")
      = !(normalizeDocument (strF "12")).isEmpty
    ∧ validateDocument (strF "99") (strF "other") (strF "US") = false := by
  refine ⟨?_, ?_⟩
  · exact (claim_C7_rule_table (strF "12") (strF "passport") (strF "FR")
      (by decide) (by decide) (by decide)).1 (by decide) (by decide) (by decide)
  · exact (claim_C7_rule_table (strF "99") (strF "other") (strF "US")
      (by decide) (by decide) (by decide)).2.2.1 (by decide) (by decide) (by decide)

/-- **C9.** `validateDocument` is case-insensitive in its type and country
arguments: it lower-cases the type and upper-cases the country itself, so
pre-normalizing the arguments changes nothing. -/
theorem claim_C9_case_insensitive (d t c : Str) :
    validateDocument d t c = validateDocument d (toLowerStr t) (toUpperStr c) := by
  rw [validateDocument, validateDocument,
    toLowerStr_isEmpty, toUpperStr_isEmpty, toLowerStr_idem, toUpperStr_idem]

/-- **C10.** An empty document, type, or country makes `validateDocument`
return `false` from the initial truthiness guard. -/
theorem claim_C10_empty_guard (d t c : Str) (h : d = [] ∨ t = [] ∨ c = []) :
    validateDocument d t c = false := by
  rw [validateDocument, if_pos]
  rcases h with h | h | h <;> subst h <;> simp

/-- Witness for C10 at a concrete input. -/
theorem claim_C10_empty_guard_witness :
    validateDocument [] (strF "cpf") (strF "BR") = false :=
  claim_C10_empty_guard [] (strF "cpf") (strF "BR") (Or.inl rfl)

/-! ## Claims about `submitOnboarding` -/

/-- A gateway with both channels verified and every code accepted. -/
def gwAccept : Gateway :=
  { emailVerified := fun _ => true
    phoneVerified := fun _ => true
    verifyPhone := fun _ _ => none
    verifyEmail := fun _ _ => none }

/-- A gateway with both channels unverified and every code rejected with
the message `Invalid code`. -/
def gwRejectAll : Gateway :=
  { emailVerified := fun _ => false
    phoneVerified := fun _ => false
    verifyPhone := fun _ _ => some (strF "Invalid code")
    verifyEmail := fun _ _ => some (strF "Invalid code") }

/-- A finalize submission whose password `aA1!` is 4 characters long but
contains one character of each required class. -/
def submitDtoShortPwd : SubmitDto :=
  { email := strF "a@x.com"
    password := strF "aA1!"
    name := strF "Al"
    businessOptions := [strF "lendMoney"]
    termsAccepted := true
    privacyAccepted := true }

/-- **C1.** The password regex of `submitOnboarding` has no `{8,}$`
quantifier: the 4-character password `aA1!` passes it, so the submission
proceeds past the strength check (reaching the client lookup) instead of
failing with `WeakPassword` — against the spec rule (`specStrongPassword`)
that rejects every password shorter than 8 characters. -/
theorem claim_C1_short_password_not_rejected :
    specStrongPassword (strF "aA1!") = false
    ∧ jsPasswordRegexTest (strF "aA1!") = true
    ∧ submitDtoShortPwd.password.length < 8
    ∧ errKindOf (submitOnboarding gwAccept submitDtoShortPwd {}) =
        some (.Generic (strF "Client not found. Please complete onboarding steps first.")) := by
  decide

/-- A finalize submission with every field the service checks present,
but both acceptance flags false. -/
def submitDtoNoTerms : SubmitDto :=
  { email := strF "a@x.com"
    password := strF "aZ9!bX8$"
    name := strF "Al"
    businessOptions := [strF "lendMoney"]
    termsAccepted := false
    privacyAccepted := false }

/-- **C2 (counterexample).** A submission missing only the terms and
privacy acceptance flags does *not* yield `MissingRequiredFields`: the
service checks neither flag, and the pipeline proceeds to the client
lookup. -/
theorem claim_C2_counterexample :
    submitDtoNoTerms.termsAccepted = false
    ∧ submitDtoNoTerms.privacyAccepted = false
    ∧ submitMissingFields submitDtoNoTerms = []
    ∧ errKindOf (submitOnboarding gwAccept submitDtoNoTerms {}) =
        some (.Generic (strF "Client not found. Please complete onboarding steps first.")) := by
  decide

theorem mapUpdateErr_ne_mrf (e : UpdateErr) (l : List Str) :
    mapUpdateErr e ≠ .MissingRequiredFields l := by
  cases e <;> simp [mapUpdateErr]

theorem submitDocumentSection_ne_mrf (dto : SubmitDto) (cid : Nat) (st : Store)
    (l : List Str) (st2 : Store) :
    submitDocumentSection dto cid st ≠ .error (.MissingRequiredFields l, st2) := by
  intro h
  unfold submitDocumentSection at h
  repeat' ((try dsimp only at h); split at h)
  all_goals simp_all [mapUpdateErr_ne_mrf]

theorem submitAddressStep_ne_mrf (dto : SubmitDto) (cid : Nat) (st : Store)
    (l : List Str) (st2 : Store) :
    submitAddressStep dto cid st ≠ .error (.MissingRequiredFields l, st2) := by
  intro h
  unfold submitAddressStep at h
  repeat' ((try dsimp only at h); split at h)
  all_goals simp_all [mapUpdateErr_ne_mrf]

theorem submitCreateTail_ne_mrf (dto : SubmitDto) (client : Client) (st : Store)
    (l : List Str) (st2 : Store) :
    submitCreateTail dto client st ≠ .error (.MissingRequiredFields l, st2) := by
  intro h
  unfold submitCreateTail at h
  repeat' ((try dsimp only at h); split at h)
  all_goals simp_all [mapUpdateErr_ne_mrf, submitAddressStep_ne_mrf]

/-- **C2 (amended).** `submitOnboarding`'s first check verifies email,
password, name and a non-empty business-option list — *only* those.  When
any are absent it fails with `MissingRequiredFields` naming every missing
field at once, the empty business-option list always lands there, no
other stage of the pipeline produces a `MissingRequiredFields` error, and
the terms/privacy acceptance flags are never consulted: the whole call is
invariant under changing both. -/
theorem claim_C2_missing_fields (gw : Gateway) (dto : SubmitDto) (st : Store) :
    (submitMissingFields dto ≠ [] →
      submitOnboarding gw dto st =
        .error (.MissingRequiredFields (submitMissingFields dto), st))
    ∧ (∀ l : List Str,
      errKindOf (submitOnboarding gw dto st) = some (.MissingRequiredFields l) →
      l = submitMissingFields dto ∧ submitMissingFields dto ≠ [])
    ∧ (dto.businessOptions = [] →
      strF "businessOptions" ∈ submitMissingFields dto ∧
      submitOnboarding gw dto st =
        .error (.MissingRequiredFields (submitMissingFields dto), st))
    ∧ (∀ t p : Bool,
      submitOnboarding gw { dto with termsAccepted := t, privacyAccepted := p } st
        = submitOnboarding gw dto st) := by
  have hpart1 : submitMissingFields dto ≠ [] →
      submitOnboarding gw dto st =
        .error (.MissingRequiredFields (submitMissingFields dto), st) := by
    intro hne
    unfold submitOnboarding
    rw [if_pos (List.length_pos.mpr hne)]
  refine ⟨hpart1, fun l h => ?_, fun hbo => ?_, fun t p => ?_⟩
  · by_cases hm : submitMissingFields dto = []
    · exfalso
      unfold submitOnboarding at h
      rw [if_neg (by simp [hm])] at h
      split at h
      · simp [errKindOf] at h
      · split at h
        · simp [errKindOf] at h
        · split at h
          · simp [errKindOf] at h
          · split at h
            · simp [errKindOf] at h
            · split at h
              · rename_i e heq
                obtain ⟨e1, st3⟩ := e
                simp [errKindOf] at h
                rw [h] at heq
                exact submitDocumentSection_ne_mrf dto _ st l st3 heq
              · rename_i st3 heq
                cases hct : submitCreateTail dto _ st3 with
                | error e =>
                  obtain ⟨e1, st4⟩ := e
                  rw [hct] at h
                  simp [errKindOf] at h
                  rw [h] at hct
                  exact submitCreateTail_ne_mrf dto _ st3 l st4 hct
                | ok v => rw [hct] at h; simp [errKindOf] at h
    · rw [hpart1 hm] at h
      simp [errKindOf] at h
      exact ⟨h.symm, hm⟩
  · have hmem : strF "businessOptions" ∈ submitMissingFields dto := by
      simp [submitMissingFields, hbo]
    have hne : submitMissingFields dto ≠ [] := by
      intro h0
      rw [h0] at hmem
      exact absurd hmem (List.not_mem_nil _)
    exact ⟨hmem, hpart1 hne⟩
  · rcases dto
    rfl

/-- A finalize submission with an empty business-option list. -/
def submitDtoEmptyBiz : SubmitDto :=
  { email := strF "a@x.com"
    password := strF "aZ9!bX8$"
    name := strF "Al"
    businessOptions := []
    termsAccepted := true
    privacyAccepted := true }

/-- Witness for C2: the empty business-option list yields exactly
`MissingRequiredFields ['businessOptions']`, and flipping both acceptance
flags leaves a concrete call unchanged. -/
theorem claim_C2_missing_fields_witness :
    (submitOnboarding gwAccept submitDtoEmptyBiz {} =
      .error (.MissingRequiredFields [strF "businessOptions"], {}))
    ∧ submitOnboarding gwAccept
        { submitDtoNoTerms with termsAccepted := true, privacyAccepted := true } {}
      = submitOnboarding gwAccept submitDtoNoTerms {} := by
  constructor
  · have h := (claim_C2_missing_fields gwAccept submitDtoEmptyBiz {}).2.2.1 rfl
    have he : submitMissingFields submitDtoEmptyBiz = [strF "businessOptions"] := by decide
    rw [he] at h
    exact h.2
  · exact (claim_C2_missing_fields gwAccept submitDtoNoTerms {}).2.2.2 true true

/-! ## Claim about the progress resolver step chain -/

/-- A snapshot with a stored email and name and nothing else. -/
def snapEmailName : FieldsPresent := { email := true, name := true }

/-- **C3 (counterexample).** On an identity with an email and a name and
nothing else, the resolver's chain answers `email` where the §4.2 chain
(the save-path chain) answers `name` — the two are not extensionally
equal. -/
theorem claim_C3_counterexample :
    stepFromProgress snapEmailName = strF "email"
    ∧ stepFromSave snapEmailName = strF "name"
    ∧ stepFromProgress snapEmailName ≠ stepFromSave snapEmailName := by
  decide

/-- **C3 (amended).** The resolver's chain agrees with the §4.2 save-path
chain on the seven most-advanced priorities (completed, address,
business_options, business_duration, capital, financial_operations,
active_customers) — below those it diverges (no password branch, the
verified-flag keyed `email_verification`, an `email` branch before
`phone_verification`, fallback `document`).  A stored single
business-option string is parsed as a one-element list. -/
theorem claim_C3_step_chains :
    (∀ f : FieldsPresent,
      (f.account || f.address || f.businessOptions || f.businessDuration ||
        f.workingCapital || f.financialOperations || f.activeCustomers) = true →
      stepFromProgress f = stepFromSave f)
    ∧ (∀ v : Str, v ≠ [] →
      parsedBusinessOptions (some (AnswerVal.s v)) = some [AnswerVal.s v]) := by
  constructor
  · intro f h
    rcases f with ⟨acc, addr, bo, bd, wc, fo, ac, pw, ec, pc, ph, nm, doc, em, ev, pv⟩
    simp only at h
    cases acc <;> cases addr <;> cases bo <;> cases bd <;> cases wc <;> cases fo <;>
      cases ac <;> simp_all [stepFromProgress, stepFromSave]
  · intro v hv
    simp [parsedBusinessOptions, AnswerVal.truthy, ne_nil_isEmpty_false hv]

/-- Witness for C3: the amended statement at concrete inputs. -/
theorem claim_C3_step_chains_witness :
    stepFromProgress { account := true } = stepFromSave { account := true }
    ∧ parsedBusinessOptions (some (AnswerVal.s (strF "lendMoney")))
        = some [AnswerVal.s (strF "lendMoney")] :=
  ⟨claim_C3_step_chains.1 { account := true } rfl,
   claim_C3_step_chains.2 (strF "lendMoney") (by decide)⟩

/-! ## Claim about document uniqueness scoping -/

/-- A client whose document `12345678` is registered under countryCode
`US`. -/
def clientDocUS : Client :=
  { id := 1
    email := strF "b@y.com"
    document := some (strF "12345678")
    documentType := some (strF "crn")
    documentCountryCode := some (strF "US") }

/-- A store holding only `clientDocUS`. -/
def stDocUS : Store := { clients := [clientDocUS], nextClientId := 2 }

/-- A save submission for a fresh email carrying the same raw document
under countryCode `BR`. -/
def saveDtoDocBR : SaveDto :=
  { email := strF "a@x.com"
    document := some (strF "12345678")
    documentType := some (strF "crn")
    documentCountryCode := some (strF "BR") }

/-- **C4 (counterexample).** Saving the identical raw document string
under a *different* countryCode is rejected: the save-path create fails
with the document-collision error even though the stored record's
country is `US` and the submission's is `BR`. -/
theorem claim_C4_counterexample :
    (stDocUS.clients.all
      (fun x => x.documentCountryCode == some (strF "US"))) = true
    ∧ saveDtoDocBR.documentCountryCode = some (strF "BR")
    ∧ errKindOf (saveOnboardingData gwAccept saveDtoDocBR stDocUS) =
        some (.Generic (strF "Client with this document already exists")) := by
  decide

/-- **C4 (amended).** Save-time document uniqueness is *global*:
`ClientsService.create` rejects any duplicate raw document regardless of
countryCode (no country appears in its check), and so does
`ClientsService.update` for a colliding row with a different id.  Only
the finalize-time check of `submitOnboarding` is scoped to the pair
(countryCode, document): it ignores rows whose countryCode differs. -/
theorem claim_C4_document_uniqueness :
    (∀ (st : Store) (dto : CreateDto) (c : Client),
      c ∈ st.clients → c.deleted = false → c.document = dto.document →
      truthyS dto.document = true → dto.email.isEmpty = false →
      st.clients.any (fun x => !x.deleted && x.email == dto.email) = false →
      st.platformUsers.any (fun u => u.email == dto.email) = false →
      clientsCreate dto st = .error .documentExists)
    ∧ (∀ (st : Store) (id : Nat) (dto : UpdateDto) (c : Client),
      dto.email = none → truthyS dto.document = true →
      st.clients.find? (fun x => !x.deleted && x.document == dto.document) = some c →
      c.id ≠ id →
      clientsUpdate id dto st = .error .documentExists)
    ∧ (∀ (st : Store) (selfId : Nat) (nd cc : Str),
      (∀ x ∈ st.clients, x.document = some nd → x.deleted = false → x.id ≠ selfId →
        x.documentCountryCode ≠ some cc) →
      submitDocCollision st selfId nd cc = false) := by
  refine ⟨fun st dto c hmem hdel hdoc ht he h1 h2 => ?_,
    fun st id dto c hemail ht hfind hne => ?_, fun st selfId nd cc h => ?_⟩
  · have hany : st.clients.any (fun x => !x.deleted && x.document == dto.document)
        = true :=
      List.any_eq_true.mpr ⟨c, hmem, by simp [hdel, hdoc]⟩
    simp [clientsCreate, he, h1, h2, ht, hany]
  · have hbne : (c.id != id) = true := by simp [hne]
    have ht2 : truthyS (none : Option Str) = false := rfl
    simp [clientsUpdate, hemail, ht2, ht, hfind, hbne]
  · rw [submitDocCollision, List.any_eq_false]
    intro x hx hp
    simp only [Bool.and_eq_true, beq_iff_eq, bne_iff_ne, Bool.not_eq_true'] at hp
    exact h x hx hp.1.1.1 hp.1.2 hp.2 hp.1.1.2

/-- Witness for C4: the country-blind create/update rejections and the
country-scoped finalize check, at concrete inputs whose stored country
(`US`) differs from the incoming one (`BR`). -/
theorem claim_C4_document_uniqueness_witness :
    clientsCreate { email := strF "a@x.com", document := some (strF "12345678") }
      stDocUS = .error .documentExists
    ∧ clientsUpdate 2 { document := some (strF "12345678") } stDocUS
      = .error .documentExists
    ∧ submitDocCollision stDocUS 2 (strF "12345678") (strF "BR") = false := by
  refine ⟨?_, ?_, ?_⟩
  · exact claim_C4_document_uniqueness.1 stDocUS
      { email := strF "a@x.com", document := some (strF "12345678") } clientDocUS
      (by decide) (by decide) (by decide) (by decide) (by decide) (by decide) (by decide)
  · exact claim_C4_document_uniqueness.2.1 stDocUS 2
      { document := some (strF "12345678") } clientDocUS
      (by decide) (by decide) (by decide) (by decide)
  · exact claim_C4_document_uniqueness.2.2 stDocUS 2 (strF "12345678") (strF "BR")
      (by decide)

/-! ## Claim about verification failures during save -/

theorem except_bind_ok {ε α β : Type} (a : α) (f : α → Except ε β) :
    (Except.ok a >>= f : Except ε β) = f a := rfl

theorem except_bind_error {ε α β : Type} (e : ε) (f : α → Except ε β) :
    ((Except.error e : Except ε α) >>= f) = Except.error e := rfl

theorem find?_map_replace (l : List Client) (id : Nat) (x c : Client)
    (h : l.find? (fun y => y.id == id) = some c) (hx : (x.id == id) = true) :
    (l.map (fun y => if y.id == id then x else y)).find? (fun y => y.id == id)
      = some x := by
  induction l with
  | nil => simp at h
  | cons a as ih =>
    by_cases ha : (a.id == id) = true
    · show List.find? _ ((if a.id == id then x else a) :: _) = some x
      rw [if_pos ha]
      exact List.find?_cons_of_pos _ hx
    · rw [List.find?_cons_of_neg _ (by simp [ha])] at h
      show List.find? _ ((if a.id == id then x else a) :: _) = some x
      rw [if_neg (by simp [ha]), List.find?_cons_of_neg _ (by simp [ha])]
      exact ih h

theorem getClient_putClient (st : Store) (id : Nat) (x c : Client)
    (h : st.getClient id = some c) (hx : x.id = id) :
    (st.putClient id x).getClient id = some x :=
  find?_map_replace st.clients id x c h (by simp [hx])

theorem findClientByEmail_props {st : Store} {e : Str} {c : Client}
    (h : findClientByEmail st e = some c) : c.deleted = false ∧ c.email = e := by
  have hp := List.find?_some h
  simp only [Bool.and_eq_true, beq_iff_eq, Bool.not_eq_true'] at hp
  exact hp

theorem truthyS_isSome {o : Option Str} (h : truthyS o = true) : o.isSome = true := by
  cases o with
  | none => simp [truthyS] at h
  | some s => rfl

theorem clientsUpdate_nameOnly (id : Nat) (nm : Option Str) (st : Store) (c : Client)
    (hget : st.getClient id = some c) :
    clientsUpdate id { name := nm } st =
      .ok (applyUpdate c { name := nm }, st.putClient id (applyUpdate c { name := nm })) := by
  unfold clientsUpdate
  simp [truthyS, hget]

theorem saveNameStep_spec (dto : SaveDto) (st : Store) (c : Client)
    (hget : st.getClient c.id = some c) :
    ∃ c2 st2 fs, saveNameStep dto (c, st, []) = .ok (c2, st2, fs)
      ∧ c2.id = c.id ∧ c2.email = c.email
      ∧ st2.getClient c.id = some c2
      ∧ (truthyS dto.name = true → c2.name = dto.name) := by
  by_cases hcond : (truthyS dto.name && dto.name != c.name) = true
  · refine ⟨applyUpdate c { name := dto.name },
      st.putClient c.id (applyUpdate c { name := dto.name }),
      savedPush [] (strF "name"), ?_, rfl, rfl, ?_, ?_⟩
    · unfold saveNameStep
      rw [if_pos hcond, clientsUpdate_nameOnly c.id dto.name st c hget]
    · exact getClient_putClient st c.id _ c hget rfl
    · intro htr
      show (if (dto.name).isSome then dto.name else c.name) = dto.name
      rw [if_pos (truthyS_isSome htr)]
  · refine ⟨c, st, [], by simp [saveNameStep, hcond], rfl, rfl, hget, fun htr => ?_⟩
    by_cases heq : dto.name = c.name
    · exact heq.symm
    · exact absurd (by simp [htr, heq]) hcond

/-- **C8 (amended).** When the gateway rejects the phone code (first
part) or the email code (second part) accompanying a save, the call
aborts with the plain untyped `Error('Phone/Email verification failed:
…')` — not a typed taxonomy error — and the field writes committed
earlier in the same call (here: the name update) remain visible in the
store the error leaves behind. -/
theorem claim_C8_verification_reject :
    (∀ (gw : Gateway) (dto : SaveDto) (st : Store) (c : Client) (m : Str),
      findClientByEmail st dto.email = some c →
      st.getClient c.id = some c →
      dto.document = none → dto.phone = none →
      truthyS dto.code = true →
      gw.verifyPhone c.id (dto.code.getD []) = some m →
      ∃ st2 : Store,
        saveOnboardingData gw dto st =
          .error (.Generic (strF "Phone verification failed: " ++ m), st2)
        ∧ (OnbError.Generic (strF "Phone verification failed: " ++ m)).isTyped = false
        ∧ (truthyS dto.name = true →
            ∃ c2 : Client, st2.getClient c.id = some c2 ∧ c2.name = dto.name))
    ∧ (∀ (gw : Gateway) (dto : SaveDto) (st : Store) (c : Client) (m : Str),
      findClientByEmail st dto.email = some c →
      st.getClient c.id = some c →
      dto.document = none → dto.phone = none → dto.code = none →
      truthyS dto.emailCode = true →
      gw.verifyEmail c.id (dto.emailCode.getD []) = some m →
      ∃ st2 : Store,
        saveOnboardingData gw dto st =
          .error (.Generic (strF "Email verification failed: " ++ m), st2)
        ∧ (OnbError.Generic (strF "Email verification failed: " ++ m)).isTyped = false
        ∧ (truthyS dto.name = true →
            ∃ c2 : Client, st2.getClient c.id = some c2 ∧ c2.name = dto.name)) := by
  constructor
  · intro gw dto st c m hfind hget hdoc hphone hcode hrej
    obtain ⟨c2, st2, fs, hstep, hid, hem2, hget2, hname⟩ := saveNameStep_spec dto st c hget
    refine ⟨st2, ?_, rfl, fun htr => ⟨c2, hget2, hname htr⟩⟩
    have hres : saveResolve dto st = .ok (c, st, []) := by
      unfold saveResolve
      rw [hfind]
    have hdocstep : saveDocumentStep dto (c2, st2, fs) = .ok (c2, st2, fs) := by
      unfold saveDocumentStep
      simp [hdoc, truthyS]
    have hphonestep : savePhoneStep dto (c2, st2, fs) = .ok (c2, st2, fs) := by
      unfold savePhoneStep
      rw [hphone]
    have hverify : savePhoneVerify gw dto (c2, st2, fs)
        = .error (.Generic (strF "Phone verification failed: " ++ m), st2) := by
      unfold savePhoneVerify
      rw [if_pos hcode]
      show (match gw.verifyPhone c2.id (dto.code.getD []) with
        | some m2 =>
          (Except.error (OnbError.Generic (strF "Phone verification failed: " ++ m2), st2) :
            Except (OnbError × Store) (Client × Store × List Str))
        | none => Except.ok (c2, st2, fs)) = _
      rw [hid, hrej]
    rw [saveOnboardingData]
    rw [hres, except_bind_ok, hstep, except_bind_ok, hdocstep, except_bind_ok,
      hphonestep, except_bind_ok, hverify, except_bind_error]
  · intro gw dto st c m hfind hget hdoc hphone hcode hecode hrej
    obtain ⟨c2, st2, fs, hstep, hid, hem2, hget2, hname⟩ := saveNameStep_spec dto st c hget
    refine ⟨st2, ?_, rfl, fun htr => ⟨c2, hget2, hname htr⟩⟩
    have hres : saveResolve dto st = .ok (c, st, []) := by
      unfold saveResolve
      rw [hfind]
    have hdocstep : saveDocumentStep dto (c2, st2, fs) = .ok (c2, st2, fs) := by
      unfold saveDocumentStep
      simp [hdoc, truthyS]
    have hphonestep : savePhoneStep dto (c2, st2, fs) = .ok (c2, st2, fs) := by
      unfold savePhoneStep
      rw [hphone]
    have hverify0 : savePhoneVerify gw dto (c2, st2, fs) = .ok (c2, st2, fs) := by
      unfold savePhoneVerify
      rw [if_neg (by simp [hcode, truthyS])]
    have hcemail : c2.email = dto.email :=
      hem2.trans (findClientByEmail_props hfind).2
    have hset : saveEmailSet dto (c2, st2, fs) = .ok (c2, st2, fs) := by
      unfold saveEmailSet
      have hfalse : (!dto.email.isEmpty && c2.email.isEmpty) = false := by
        rw [hcemail]
        cases dto.email.isEmpty <;> rfl
      rw [if_neg (by simp [hfalse])]
    have hverify : saveEmailVerify gw dto (c2, st2, fs)
        = .error (.Generic (strF "Email verification failed: " ++ m), st2) := by
      unfold saveEmailVerify
      rw [if_pos hecode]
      show (match gw.verifyEmail c2.id (dto.emailCode.getD []) with
        | some m2 =>
          (Except.error (OnbError.Generic (strF "Email verification failed: " ++ m2), st2) :
            Except (OnbError × Store) (Client × Store × List Str))
        | none => Except.ok (c2, st2, savedPush fs (strF "emailCode"))) = _
      rw [hid, hrej]
    rw [saveOnboardingData]
    rw [hres, except_bind_ok, hstep, except_bind_ok, hdocstep, except_bind_ok,
      hphonestep, except_bind_ok, hverify0, except_bind_ok, hset, except_bind_ok,
      hverify, except_bind_error]

/-- A store holding one bare client with only an email. -/
def clientAX : Client := { id := 1, email := strF "a@x.com" }

/-- The store holding only `clientAX`. -/
def stOneClient : Store := { clients := [clientAX], nextClientId := 2 }

/-- A save submission carrying a name write and a phone code. -/
def saveDtoPhoneCode : SaveDto :=
  { email := strF "a@x.com"
    name := some (strF "Al")
    code := some (strF "1234") }

/-- **C8 (counterexample).** A save whose phone code the gateway rejects
aborts with the *generic* `Error('Phone verification failed: Invalid
code')`: the error is not the typed `VerificationFailed` of the taxonomy
(no such class exists in the source), refuting "one of the taxonomy's
typed errors, never a generic untyped fault". -/
theorem claim_C8_counterexample :
    errKindOf (saveOnboardingData gwRejectAll saveDtoPhoneCode stOneClient)
      = some (.Generic (strF "Phone verification failed: Invalid code"))
    ∧ (OnbError.Generic (strF "Phone verification failed: Invalid code")).isTyped = false
    ∧ OnbError.Generic (strF "Phone verification failed: Invalid code")
        ≠ OnbError.VerificationFailed := by
  decide

/-- Witness for C8: the amended statement at a concrete gateway, store
and submission. -/
theorem claim_C8_verification_reject_witness :
    ∃ st2 : Store,
      saveOnboardingData gwRejectAll saveDtoPhoneCode stOneClient =
        .error (.Generic (strF "Phone verification failed: " ++ strF "Invalid code"), st2)
      ∧ (OnbError.Generic
          (strF "Phone verification failed: " ++ strF "Invalid code")).isTyped = false
      ∧ (truthyS saveDtoPhoneCode.name = true →
          ∃ c2 : Client, st2.getClient clientAX.id = some c2
            ∧ c2.name = saveDtoPhoneCode.name) :=
  claim_C8_verification_reject.1 gwRejectAll saveDtoPhoneCode stOneClient clientAX
    (strF "Invalid code") rfl rfl rfl rfl (by decide) rfl
